import Mathlib

/-!
Verification of the answer-extraction and search-orchestration layer of the
`web_search` bridge (Go sources under `src/`).  The Go code is shallowly
embedded: pure functions become Lean functions, the HTTP exchange becomes an
explicit `HttpOutcome` value passed to the client function, and durations are
natural numbers of seconds.
-/

namespace WebSearch

/-! ### String helpers

The Go code uses `strings.ToLower`, `strings.TrimSpace`, `strings.Contains`
and `strings.HasPrefix`.  They are embedded on the character-list view of
`String` so that every definition evaluates inside the kernel.  `Char.toLower`
agrees with Go on ASCII input, which is all the fixed lexicons below contain.
-/

/-- Whitespace as trimmed by Go `strings.TrimSpace` (ASCII subset). -/
def isSpaceChar (c : Char) : Bool :=
  c == ' ' || c == '\t' || c == '\n' || c == '\r' || c == '\x0b' || c == '\x0c'

/-- Go `strings.TrimSpace` on ASCII input. -/
def trimStr (s : String) : String :=
  ⟨((s.data.dropWhile isSpaceChar).reverse.dropWhile isSpaceChar).reverse⟩

/-- Go `strings.ToLower` on ASCII input. -/
def lowerStr (s : String) : String :=
  ⟨s.data.map Char.toLower⟩

/-- Does `hay` start with `pat`? -/
def listHasPfx : List Char → List Char → Bool
  | _, [] => true
  | [], _ :: _ => false
  | c :: cs, p :: ps => c == p && listHasPfx cs ps

/-- Go `strings.HasPrefix s p`. -/
def strHasPfx (s p : String) : Bool :=
  listHasPfx s.data p.data

/-- Does `pat` occur contiguously inside `hay`? -/
def listHasSub : List Char → List Char → Bool
  | [], pat => pat.isEmpty
  | c :: cs, pat => listHasPfx (c :: cs) pat || listHasSub cs pat

/-- Go `strings.Contains s sub`. -/
def containsStr (s sub : String) : Bool :=
  listHasSub s.data sub.data

/-! ### Data model (`src/unnamed/part_009`) -/

/-- Go `respContent`: one content segment of an output item. -/
structure RespContent where
  type : String
  text : String
deriving DecidableEq

/-- Go `respItem`: one output item of the response envelope. -/
structure RespItem where
  type : String
  content : List RespContent
deriving DecidableEq

/-- Go `apiReasoning`. -/
structure ApiReasoning where
  effort : String
deriving DecidableEq

/-- Go `apiResponse`: the decoded response envelope. -/
structure ApiResponse where
  id : String
  model : String
  reasoning : ApiReasoning
  output : List RespItem
deriving DecidableEq

/-! ### ExtractAnswer (`src/api.go`, lines 76-105) -/

/-- Inner loop of `ExtractAnswer`: collect, in order, the `text` of every
`output_text` segment whose text is non-empty. -/
def collectSegTexts : List RespContent → List String
  | [] => []
  | c :: cs =>
    if c.type == "output_text" && c.text != "" then
      c.text :: collectSegTexts cs
    else
      collectSegTexts cs

/-- Outer loop of `ExtractAnswer`: the Go code appends into `answers`,
skipping every item whose type is not `"message"`; the append-only
accumulation is expressed as list concatenation. -/
def collectAnswers : List RespItem → List String
  | [] => []
  | item :: rest =>
    if item.type != "message" then
      collectAnswers rest
    else
      collectSegTexts item.content ++ collectAnswers rest

/-- The join loop of `ExtractAnswer`: `answer := ""`, then for each indexed
element prepend a space when the index is positive.  The `i > 0` indexing is
the head/tail split: the head starts the accumulator, the tail folds. -/
def joinWithSpace : List String → String
  | [] => ""
  | t :: ts => ts.foldl (fun answer text => answer ++ " " ++ text) t

/-- Go `ExtractAnswer` (`src/api.go`).  The `nil` receiver check becomes the
`Option` match. -/
def ExtractAnswer (apiResp : Option ApiResponse) : String :=
  match apiResp with
  | none => ""
  | some r =>
    let answers := collectAnswers r.output
    if answers.length > 0 then
      joinWithSpace answers
    else
      ""

/-- Spec-side description of the answer texts of an item list: the `text`
field of every non-empty `output_text` segment inside a `message` item, in
order. -/
def specTextsOfItems (items : List RespItem) : List String :=
  ((items.filter (fun item => item.type == "message")).map
    (fun item =>
      (item.content.filter (fun c => c.type == "output_text" && c.text != "")).map
        (fun c => c.text))).flatten

/-- Spec-side description of the answer texts of an envelope. -/
def specAnswerTexts (r : ApiResponse) : List String :=
  specTextsOfItems r.output

/-! ### Lemmas relating the loops to the spec description -/

theorem collectSegTexts_eq (cs : List RespContent) :
    collectSegTexts cs
      = (cs.filter (fun c => c.type == "output_text" && c.text != "")).map (fun c => c.text) := by
  induction cs with
  | nil => rfl
  | cons c cs ih =>
    by_cases h : (c.type == "output_text" && c.text != "") = true
    · simp [collectSegTexts, List.filter, h, ih]
    · simp [collectSegTexts, List.filter, h, ih]

theorem collectAnswers_eq (items : List RespItem) :
    collectAnswers items = specTextsOfItems items := by
  induction items with
  | nil => rfl
  | cons item rest ih =>
    by_cases h : (item.type == "message") = true
    · simp [collectAnswers, specTextsOfItems, bne, h, List.filter_cons,
        collectSegTexts_eq, ih]
    · simp [collectAnswers, specTextsOfItems, bne, h, List.filter_cons, ih]

theorem joinWithSpace_eq_intercalate (l : List String) :
    joinWithSpace l = String.intercalate " " l := by
  match l with
  | [] => rfl
  | t :: ts =>
    show ts.foldl (fun answer text => answer ++ " " ++ text) t
        = String.intercalate.go t " " ts
    induction ts generalizing t with
    | nil => rfl
    | cons a as ih =>
      show as.foldl (fun answer text => answer ++ " " ++ text) (t ++ " " ++ a)
          = String.intercalate.go (t ++ " " ++ a) " " as
      exact ih (t ++ " " ++ a)

/-! ### EffortPolicy (`src/unnamed/part_009`)

Durations are embedded as natural numbers of seconds. -/

/-- Go `defaultModel`. -/
def defaultModel : String := "gpt-5-mini"

/-- Go `defaultEffort`. -/
def defaultEffort : String := "medium"

/-- Go `defaultVerbosity`. -/
def defaultVerbosity : String := "medium"

/-- Go `timeoutMinimal = 90 * time.Second`. -/
def timeoutMinimal : Nat := 90

/-- Go `timeoutLow = 3 * time.Minute`. -/
def timeoutLow : Nat := 3 * 60

/-- Go `timeoutMedium = 5 * time.Minute`. -/
def timeoutMedium : Nat := 5 * 60

/-- Go `timeoutHigh = 10 * time.Minute`. -/
def timeoutHigh : Nat := 10 * 60

/-- Go `getTimeoutForEffort`: the switch over the effort label, with the
`"low", ""` case grouped as in the source and a default of `timeoutLow`. -/
def getTimeoutForEffort (effort : String) : Nat :=
  match effort with
  | "high" => timeoutHigh
  | "medium" => timeoutMedium
  | "low" | "" => timeoutLow
  | "minimal" => timeoutMinimal
  | _ => timeoutLow

/-- Go `validateEffort`: valid labels pass through, everything else (the
empty string included) becomes `defaultEffort`. -/
def validateEffort (effort : String) : String :=
  match effort with
  | "minimal" | "low" | "medium" | "high" => effort
  | "" => defaultEffort
  | _ => defaultEffort

/-- Go `validateVerbosity`: valid labels pass through, everything else (the
empty string included) becomes `defaultVerbosity`. -/
def validateVerbosity (verbosity : String) : String :=
  match verbosity with
  | "low" | "medium" | "high" => verbosity
  | "" => defaultVerbosity
  | _ => defaultVerbosity

/-- Records whether `getTimeoutForEffort`'s switch resolves through one of
its explicit cases (`"high"`, `"medium"`, `"low"`/`""`, `"minimal"`) rather
than through the default (unrecognized-input) branch. -/
def effortRecognized (effort : String) : Bool :=
  match effort with
  | "high" => true
  | "medium" => true
  | "low" | "" => true
  | "minimal" => true
  | _ => false

/-! ### SearchNecessityClassifier (`src/errors.go`, `ShouldUseWebSearch`) -/

/-- The fixed recency/current-events lexicon (`currentIndicators`). -/
def currentIndicators : List String :=
  ["latest", "recent", "current", "now", "today", "this year", "2024", "2025",
   "news", "breaking", "updates", "happening", "trending", "new", "just",
   "price", "stock", "weather", "forecast", "schedule", "events",
   "who won", "who is", "what happened", "when did", "status of"]

/-- The fixed search-intent lexicon (`searchIndicators`). -/
def searchIndicators : List String :=
  ["find", "search", "look up", "reviews", "comparison", "vs",
   "best", "top", "list of", "guide", "tutorial", "how to",
   "where can i", "where to", "contact", "address", "phone",
   "buy", "purchase", "store", "shop", "available"]

/-- The fixed pure-knowledge prefix lexicon (`knowledgePatterns`). -/
def knowledgePatterns : List String :=
  ["what is", "define", "explain", "how does", "why does", "what does",
   "capital of", "president of", "author of", "invented", "discovered",
   "formula", "equation", "rule", "law", "theory", "principle",
   "meaning of", "difference between", "history of", "origin of"]

/-- The third loop of `ShouldUseWebSearch`, with its early returns made
explicit: on the first pattern that starts the query, the loop returns
(`some`): `true` when a recency indicator is additionally contained, else
`false`; when no pattern matches the loop falls through (`none`). -/
def knowledgeLoop (queryLower : String) : List String → Option Bool
  | [] => none
  | p :: ps =>
    if strHasPfx queryLower p then
      some (currentIndicators.any (fun i => containsStr queryLower i))
    else
      knowledgeLoop queryLower ps

/-- Go `ShouldUseWebSearch` (`src/errors.go`): trim, lowercase, then the
three indicator scans in order; the first two loops with early `return true`
are `List.any`. -/
def ShouldUseWebSearch (query : String) : Bool :=
  let queryLower := lowerStr (trimStr query)
  if currentIndicators.any (fun i => containsStr queryLower i) then true
  else if searchIndicators.any (fun i => containsStr queryLower i) then true
  else
    match knowledgeLoop queryLower knowledgePatterns with
    | some b => b
    | none => true

/-- The decision procedure exactly as the spec words it: recency term
present → true; else search-intent term present → true; else
pure-knowledge prefix → false unless a recency term is additionally
present; else true. -/
def specSearchDecision (query : String) : Bool :=
  let t := lowerStr (trimStr query)
  if currentIndicators.any (fun i => containsStr t i) then true
  else if searchIndicators.any (fun i => containsStr t i) then true
  else if knowledgePatterns.any (fun p => strHasPfx t p) then
    (if currentIndicators.any (fun i => containsStr t i) then true else false)
  else true

theorem knowledgeLoop_eq (t : String) (ps : List String) :
    knowledgeLoop t ps
      = if ps.any (fun p => strHasPfx t p) then
          some (currentIndicators.any (fun i => containsStr t i))
        else none := by
  induction ps with
  | nil => rfl
  | cons p ps ih =>
    by_cases h : strHasPfx t p = true
    · simp [knowledgeLoop, h]
    · simp [knowledgeLoop, h, ih]

theorem shouldUseWebSearch_eq_spec (q : String) :
    ShouldUseWebSearch q = specSearchDecision q := by
  simp only [ShouldUseWebSearch, specSearchDecision, knowledgeLoop_eq]
  by_cases h : (knowledgePatterns.any
      (fun p => strHasPfx (lowerStr (trimStr q)) p)) = true
  · simp [h, List.any_eq]
  · simp [h, List.any_eq]

/-- C1: `ExtractAnswer` is total on envelopes; the `nil` envelope yields the
empty string, and every envelope yields the ordered concatenation, joined by
one ASCII space, of every non-empty `text` of an `output_text` segment inside
a `message` item, in envelope order, with no other contribution; with no such
text the result is the empty string. -/
theorem claim_C1 :
    ExtractAnswer none = "" ∧
    ∀ r : ApiResponse,
      ExtractAnswer (some r) = String.intercalate " " (specAnswerTexts r) := by
  refine ⟨rfl, fun r => ?_⟩
  show (let answers := collectAnswers r.output;
        if answers.length > 0 then joinWithSpace answers else "")
      = String.intercalate " " (specAnswerTexts r)
  rw [show specAnswerTexts r = collectAnswers r.output from
    (collectAnswers_eq r.output).symm]
  cases h : collectAnswers r.output with
  | nil => rfl
  | cons t ts => simp [joinWithSpace_eq_intercalate]

/-- C2: `ShouldUseWebSearch` lowercases and trims the query and then decides
in the spec's order — recency term → true; else search-intent term → true;
else pure-knowledge prefix → false unless a recency term is present; else
true — and on the two example queries returns false resp. true. -/
theorem claim_C2 :
    (∀ q : String, ShouldUseWebSearch q = specSearchDecision q) ∧
    ShouldUseWebSearch "What is the capital of France?" = false ∧
    ShouldUseWebSearch "latest news on the election" = true :=
  ⟨shouldUseWebSearch_eq_spec, by decide, by decide⟩

theorem validateEffort_cases (s : String) :
    validateEffort s = "minimal" ∨ validateEffort s = "low" ∨
    validateEffort s = "medium" ∨ validateEffort s = "high" := by
  unfold validateEffort
  split <;> simp_all [defaultEffort]

theorem validateVerbosity_cases (s : String) :
    validateVerbosity s = "low" ∨ validateVerbosity s = "medium" ∨
    validateVerbosity s = "high" := by
  unfold validateVerbosity
  split <;> simp_all [defaultVerbosity]

theorem getTimeoutForEffort_default (s : String)
    (h : s ∉ (["minimal", "low", "medium", "high"] : List String)) :
    getTimeoutForEffort s = 180 := by
  unfold getTimeoutForEffort
  split <;> simp_all [timeoutLow]

/-- C4: `getTimeoutForEffort` is total and returns 90 s for `"minimal"`,
180 s for `"low"`, 300 s for `"medium"`, 600 s for `"high"`, and 180 s (the
low timeout) for the empty string and every other unrecognized input. -/
theorem claim_C4 :
    getTimeoutForEffort "minimal" = 90 ∧
    getTimeoutForEffort "low" = 180 ∧
    getTimeoutForEffort "medium" = 300 ∧
    getTimeoutForEffort "high" = 600 ∧
    getTimeoutForEffort "" = 180 ∧
    ∀ s : String, s ∉ (["minimal", "low", "medium", "high"] : List String) →
      getTimeoutForEffort s = 180 :=
  ⟨rfl, rfl, rfl, rfl, rfl, fun s h => getTimeoutForEffort_default s h⟩

/-- C4 witness at the concrete unrecognized input `"bogus"`. -/
theorem claim_C4_witness :
    "bogus" ∉ (["minimal", "low", "medium", "high"] : List String) ∧
    getTimeoutForEffort "bogus" = 180 :=
  ⟨by decide, claim_C4.2.2.2.2.2 "bogus" (by decide)⟩

/-- C5: `validateEffort` and `validateVerbosity` are total: each valid label
is returned unchanged and every other input (the empty string included) maps
to `"medium"`, never an error. -/
theorem claim_C5 :
    (∀ s : String, s ∈ (["minimal", "low", "medium", "high"] : List String) →
      validateEffort s = s) ∧
    (∀ s : String, s ∉ (["minimal", "low", "medium", "high"] : List String) →
      validateEffort s = "medium") ∧
    (∀ s : String, s ∈ (["low", "medium", "high"] : List String) →
      validateVerbosity s = s) ∧
    (∀ s : String, s ∉ (["low", "medium", "high"] : List String) →
      validateVerbosity s = "medium") := by
  refine ⟨fun s h => ?_, fun s h => ?_, fun s h => ?_, fun s h => ?_⟩
  · simp only [List.mem_cons, List.not_mem_nil, or_false] at h
    rcases h with h | h | h | h <;> subst h <;> rfl
  · unfold validateEffort
    split <;> simp_all [defaultEffort]
  · simp only [List.mem_cons, List.not_mem_nil, or_false] at h
    rcases h with h | h | h <;> subst h <;> rfl
  · unfold validateVerbosity
    split <;> simp_all [defaultVerbosity]

/-- C5 witness at the concrete inputs `""`, `"bogus"` and `"high"`. -/
theorem claim_C5_witness :
    validateEffort "" = "medium" ∧ validateEffort "bogus" = "medium" ∧
    validateEffort "high" = "high" ∧ validateVerbosity "" = "medium" :=
  ⟨claim_C5.2.1 "" (by decide), claim_C5.2.1 "bogus" (by decide),
   claim_C5.1 "high" (by decide), claim_C5.2.2.2 "" (by decide)⟩

/-- C9: the validators are closed over their valid label sets and
idempotent, and a validated effort always resolves `getTimeoutForEffort`
through an explicit case, never the unrecognized-input default branch
(`effortRecognized` records which branch the switch takes). -/
theorem claim_C9 : ∀ s : String,
    validateEffort s ∈ (["minimal", "low", "medium", "high"] : List String) ∧
    validateEffort (validateEffort s) = validateEffort s ∧
    validateVerbosity s ∈ (["low", "medium", "high"] : List String) ∧
    validateVerbosity (validateVerbosity s) = validateVerbosity s ∧
    effortRecognized (validateEffort s) = true := by
  intro s
  rcases validateEffort_cases s with h | h | h | h <;>
    rcases validateVerbosity_cases s with h' | h' | h' <;>
      rw [h, h'] <;> decide

/-! ### Request body and its JSON shape (`src/unnamed/part_009`,
`src/api.go` lines 16-42) -/

/-- Go `reqTool`. -/
structure ReqTool where
  type : String
deriving DecidableEq

/-- Go `reqReasoning`. -/
structure ReqReasoning where
  effort : String
deriving DecidableEq

/-- Go `reqText`. -/
structure ReqText where
  verbosity : String
deriving DecidableEq

/-- Go `requestBody`.  The `tools` field carries the json tag
`tools,omitempty`, `previousResponseID` the tag
`previous_response_id,omitempty`. -/
structure RequestBody where
  model : String
  input : String
  reasoning : ReqReasoning
  text : ReqText
  tools : List ReqTool
  previousResponseID : String
deriving DecidableEq

/-- The body value `CallAPI` constructs (`src/api.go` lines 20-37): every
plain field from the arguments, `tools` left at the Go zero value (nil
slice, embedded as `[]`) and then set to the single web-search descriptor
exactly when `useWebSearch` holds. -/
def buildRequestBody (query model effort verbosity previousResponseID : String)
    (useWebSearch : Bool) : RequestBody :=
  let body : RequestBody :=
    { model := model
      input := query
      reasoning := { effort := effort }
      text := { verbosity := verbosity }
      tools := []
      previousResponseID := previousResponseID }
  if useWebSearch then
    { body with tools := [{ type := "web_search_preview" }] }
  else
    body

/-- JSON values, as far as this payload needs them. -/
inductive Jval where
  | str (s : String)
  | obj (fields : List (String × Jval))
  | arr (elems : List Jval)

/-- Marshalled form of one `reqTool`. -/
def marshalTool (t : ReqTool) : Jval :=
  .obj [("type", .str t.type)]

/-- Go `encoding/json` marshalling of `requestBody`, field by field in
struct order.  `omitempty` drops `tools` when the slice is empty and
`previous_response_id` when the string is empty; the other fields are always
present. -/
def marshalRequestBody (b : RequestBody) : List (String × Jval) :=
  [("model", .str b.model), ("input", .str b.input),
   ("reasoning", .obj [("effort", .str b.reasoning.effort)]),
   ("text", .obj [("verbosity", .str b.text.verbosity)])]
  ++ (if b.tools.isEmpty then [] else [("tools", .arr (b.tools.map marshalTool))])
  ++ (if b.previousResponseID = "" then []
      else [("previous_response_id", .str b.previousResponseID)])

/-- C3: in the payload `CallAPI` builds, `previous_response_id` is present
iff `previousResponseID` is non-empty, `tools` is present iff `useWebSearch`
is true, and when present the tools array is exactly
`[{type: "web_search_preview"}]`. -/
theorem claim_C3 (query model effort verbosity previousResponseID : String)
    (useWebSearch : Bool) :
    (((marshalRequestBody (buildRequestBody query model effort verbosity
        previousResponseID useWebSearch)).lookup "previous_response_id").isSome
      ↔ previousResponseID ≠ "") ∧
    (((marshalRequestBody (buildRequestBody query model effort verbosity
        previousResponseID useWebSearch)).lookup "tools").isSome
      ↔ useWebSearch = true) ∧
    (useWebSearch = true →
      (marshalRequestBody (buildRequestBody query model effort verbosity
        previousResponseID useWebSearch)).lookup "tools"
        = some (.arr [.obj [("type", .str "web_search_preview")]])) := by
  cases useWebSearch <;>
    by_cases h : previousResponseID = "" <;>
      simp [buildRequestBody, marshalRequestBody, marshalTool, h, List.lookup]

/-- C3 witness at concrete arguments: web search on, empty continuation
token. -/
theorem claim_C3_witness :
    (marshalRequestBody (buildRequestBody "q" "m" "low" "low" "" true)).lookup "tools"
      = some (.arr [.obj [("type", .str "web_search_preview")]]) :=
  (claim_C3 "q" "m" "low" "low" "" true).2.2 rfl

/-! ### CallAPI (`src/api.go`, lines 16-74)

The HTTP exchange is external: it is passed in as an `HttpOutcome`.  A
completed exchange carries the status, the raw body, and the result
`json.Unmarshal` produces on that body (the JSON decoder is a library, not
embedded here).  The trace records which effectful steps were reached. -/

/-- The failures `CallAPI` can return.  `noAPIKey` is `ErrNoAPIKey` from
`src/errors.go`; `apiError` is the `APIError` struct with its `StatusCode`
and `Body`; `transport` wraps an `http request` failure; `parseJson` wraps a
`parse json` failure. -/
inductive CallErr where
  | noAPIKey
  | transport (msg : String)
  | apiError (status : Nat) (body : String)
  | parseJson (body : String)
deriving DecidableEq

/-- Outcome of the outbound HTTP exchange, supplied by the environment. -/
inductive HttpOutcome where
  | failure (msg : String)
  | response (status : Nat) (body : String) (parsed : Option ApiResponse)
deriving DecidableEq

/-- Result of `CallAPI` plus a trace of which effectful steps ran. -/
structure CallTrace where
  result : Except CallErr ApiResponse
  requestBuilt : Bool
  headersSet : Bool
  httpCalled : Bool

/-- Go `CallAPI` (`src/api.go`): the empty-credential guard comes first;
otherwise the body is built and marshalled, the request is built with both
headers, the exchange runs, and the result is classified: transport failure,
status outside `[200,300)` (an `APIError` with that status and the body
verbatim), decode failure, or success.
`baseURL` and `timeout` reach only the HTTP layer, which is external. -/
def CallAPI (apiKey _baseURL query model effort verbosity previousResponseID : String)
    (_timeout : Nat) (useWebSearch : Bool) (http : HttpOutcome) : CallTrace :=
  if apiKey = "" then
    { result := .error .noAPIKey
      requestBuilt := false, headersSet := false, httpCalled := false }
  else
    let _body := buildRequestBody query model effort verbosity
      previousResponseID useWebSearch
    match http with
    | .failure msg =>
      { result := .error (.transport msg)
        requestBuilt := true, headersSet := true, httpCalled := true }
    | .response status body parsed =>
      if status < 200 ∨ status ≥ 300 then
        { result := .error (.apiError status body)
          requestBuilt := true, headersSet := true, httpCalled := true }
      else
        match parsed with
        | none =>
          { result := .error (.parseJson body)
            requestBuilt := true, headersSet := true, httpCalled := true }
        | some ar =>
          { result := .ok ar
            requestBuilt := true, headersSet := true, httpCalled := true }

/-- C7: with an empty credential, `CallAPI` returns `ErrNoAPIKey` before any
network I/O — no request built, no headers attached, no HTTP call made. -/
theorem claim_C7 (baseURL query model effort verbosity previousResponseID : String)
    (timeout : Nat) (useWebSearch : Bool) (http : HttpOutcome) :
    CallAPI "" baseURL query model effort verbosity previousResponseID
        timeout useWebSearch http
      = { result := .error .noAPIKey
          requestBuilt := false, headersSet := false, httpCalled := false } :=
  rfl

/-- C8: a completed exchange with status outside `[200,300)` yields an
`APIError` carrying exactly that status and the raw body verbatim; a status
inside `[200,300)` never yields an `APIError`. -/
theorem claim_C8 (apiKey baseURL query model effort verbosity
    previousResponseID : String) (timeout : Nat) (useWebSearch : Bool)
    (status : Nat) (body : String) (parsed : Option ApiResponse) :
    (apiKey ≠ "" → status < 200 ∨ 300 ≤ status →
      (CallAPI apiKey baseURL query model effort verbosity previousResponseID
          timeout useWebSearch (.response status body parsed)).result
        = .error (.apiError status body)) ∧
    (200 ≤ status → status < 300 →
      ∀ st bd,
        (CallAPI apiKey baseURL query model effort verbosity previousResponseID
            timeout useWebSearch (.response status body parsed)).result
          ≠ .error (.apiError st bd)) := by
  constructor
  · intro hkey hs
    have hs' : status < 200 ∨ status ≥ 300 := hs
    simp [CallAPI, hkey, hs']
  · intro h200 h300 st bd
    have hs' : ¬(status < 200 ∨ status ≥ 300) := by omega
    by_cases hkey : apiKey = ""
    · simp [CallAPI, hkey]
    · cases parsed <;> simp [CallAPI, hkey, hs']

/-- C8 witness: status 401 with a concrete body yields the `APIError`
carrying 401 and that body. -/
theorem claim_C8_witness :
    (CallAPI "key" "url" "q" "m" "low" "low" "" 180 true
        (.response 401 "unauthorized" none)).result
      = .error (.apiError 401 "unauthorized") :=
  (claim_C8 "key" "url" "q" "m" "low" "low" "" 180 true
    401 "unauthorized" none).1 (by decide) (by decide)

/-! ### HandleWebSearch (`src/api.go`, lines 107-190)

The MCP argument bag `map[string]interface{}` becomes an association list of
dynamically-typed values; Go type assertions become matches on `GoVal`.
`logToClient` is side-effect-only and dropped.  The second component of the
result records whether control reached the `CallAPI` invocation (a network
attempt). -/

/-- A dynamically typed argument value (`interface{}`). -/
inductive GoVal where
  | str (s : String)
  | boolv (b : Bool)
  | other
deriving DecidableEq

/-- The MCP argument bag. -/
abbrev Args := List (String × GoVal)

/-- Go `v, ok := args[key].(string)`: the string and `true` when the key is
present with a string value, otherwise the zero value and `false`. -/
def getStringArg (args : Args) (key : String) : String × Bool :=
  match args.lookup key with
  | some (.str s) => (s, true)
  | _ => ("", false)

/-- The `web_search` extraction of `HandleWebSearch`: defaults to `true`,
overridden only when the key exists with a boolean value. -/
def extractUseWebSearch (args : Args) : Bool :=
  match args.lookup "web_search" with
  | some (.boolv b) => b
  | _ => true

/-- Go `time.Duration.String()` for positive whole-second durations under
one hour (the only durations this program produces): `90 → "1m30s"`,
`300 → "5m0s"`, and seconds alone below one minute. -/
def goDurationString (secs : Nat) : String :=
  if secs < 60 then toString secs ++ "s"
  else toString (secs / 60) ++ "m" ++ toString (secs % 60) ++ "s"

/-- Go `WebSearchResult` (`src/api.go`).  Fields the source leaves unset are
the Go zero values (`""`, `false`). -/
structure WebSearchResult where
  Success : Bool
  Answer : String
  Query : String
  Model : String
  Effort : String
  TimeoutUsed : String
  ID : String
  RequestedModel : String
  RequestedEffort : String
  WebSearchUsed : Bool
  PreviousResponseID : String
  Error : String
deriving DecidableEq

/-- Go `HandleWebSearch` (`src/api.go`): read the continuation token first,
validate the query, resolve model/effort/verbosity/web-search/timeout, call
`CallAPI`, and classify the answer extraction. -/
def HandleWebSearch (apiKey baseURL : String) (args : Args) (http : HttpOutcome) :
    Except CallErr WebSearchResult × Bool :=
  let previousResponseID := (getStringArg args "previous_response_id").1
  let query := (getStringArg args "query").1
  let ok := (getStringArg args "query").2
  if !ok || query == "" then
    (.ok { Success := false, Answer := "", Query := query, Model := "",
           Effort := "", TimeoutUsed := "", ID := "", RequestedModel := "",
           RequestedEffort := "", WebSearchUsed := false,
           PreviousResponseID := previousResponseID,
           Error := "Please provide a query to search for" }, false)
  else
    let model0 := (getStringArg args "model").1
    let model := if model0 == "" then defaultModel else model0
    let effort := validateEffort (getStringArg args "reasoning_effort").1
    let verbosity := validateVerbosity (getStringArg args "verbosity").1
    let useWebSearch := extractUseWebSearch args
    let timeout := getTimeoutForEffort effort
    let call := CallAPI apiKey baseURL query model effort verbosity
      previousResponseID timeout useWebSearch http
    match call.result with
    | .error e => (.error e, true)
    | .ok apiResp =>
      let answer := ExtractAnswer (some apiResp)
      if answer == "" then
        (.ok { Success := false, Answer := "", Query := query, Model := "",
               Effort := "", TimeoutUsed := goDurationString timeout, ID := "",
               RequestedModel := model, RequestedEffort := effort,
               WebSearchUsed := useWebSearch,
               PreviousResponseID := previousResponseID,
               Error := "No answer found in response" }, true)
      else
        (.ok { Success := true, Answer := answer, Query := query,
               Model := apiResp.model, Effort := apiResp.reasoning.effort,
               TimeoutUsed := goDurationString timeout, ID := apiResp.id,
               RequestedModel := model, RequestedEffort := effort,
               WebSearchUsed := useWebSearch,
               PreviousResponseID := previousResponseID, Error := "" }, true)

/-- The structured result returned on a missing or empty query. -/
def missingQueryResult (args : Args) : WebSearchResult :=
  { Success := false, Answer := "", Query := (getStringArg args "query").1,
    Model := "", Effort := "", TimeoutUsed := "", ID := "",
    RequestedModel := "", RequestedEffort := "", WebSearchUsed := false,
    PreviousResponseID := (getStringArg args "previous_response_id").1,
    Error := "Please provide a query to search for" }

theorem handleWebSearch_missing_query (apiKey baseURL : String) (args : Args)
    (http : HttpOutcome)
    (h : (getStringArg args "query").2 = false ∨ (getStringArg args "query").1 = "") :
    HandleWebSearch apiKey baseURL args http = (.ok (missingQueryResult args), false) := by
  unfold HandleWebSearch missingQueryResult
  rcases h with h | h <;> simp [h]

/-- The structured result returned when the call succeeds but no answer text
is extractable. -/
def noAnswerResult (args : Args) : WebSearchResult :=
  { Success := false, Answer := "", Query := (getStringArg args "query").1,
    Model := "", Effort := "",
    TimeoutUsed := goDurationString (getTimeoutForEffort
      (validateEffort (getStringArg args "reasoning_effort").1)),
    ID := "",
    RequestedModel := if (getStringArg args "model").1 == "" then defaultModel
      else (getStringArg args "model").1,
    RequestedEffort := validateEffort (getStringArg args "reasoning_effort").1,
    WebSearchUsed := extractUseWebSearch args,
    PreviousResponseID := (getStringArg args "previous_response_id").1,
    Error := "No answer found in response" }

theorem handleWebSearch_no_answer (apiKey baseURL : String) (args : Args)
    (status : Nat) (body : String) (resp : ApiResponse)
    (hkey : apiKey ≠ "")
    (hok : (getStringArg args "query").2 = true)
    (hq : (getStringArg args "query").1 ≠ "")
    (h200 : 200 ≤ status) (h300 : status < 300)
    (hans : ExtractAnswer (some resp) = "") :
    HandleWebSearch apiKey baseURL args (.response status body (some resp))
      = (.ok (noAnswerResult args), true) := by
  have hs : ¬(status < 200 ∨ status ≥ 300) := by omega
  unfold HandleWebSearch noAnswerResult
  simp [CallAPI, hkey, hok, hq, hs, hans]

/-- C6: the two soft failures of `HandleWebSearch` are structured results
with a nil error: a missing or empty query yields the
"Please provide a query to search for" result without reaching `CallAPI`,
and a completed call whose envelope extracts no answer yields the
"No answer found in response" result carrying the echo fields (query,
requested model, requested effort, timeout used). -/
theorem claim_C6 :
    (∀ (apiKey baseURL : String) (args : Args) (http : HttpOutcome),
      (getStringArg args "query").2 = false ∨ (getStringArg args "query").1 = "" →
      HandleWebSearch apiKey baseURL args http
        = (.ok (missingQueryResult args), false)) ∧
    (∀ (apiKey baseURL : String) (args : Args) (status : Nat) (body : String)
        (resp : ApiResponse),
      apiKey ≠ "" →
      (getStringArg args "query").2 = true →
      (getStringArg args "query").1 ≠ "" →
      200 ≤ status → status < 300 →
      ExtractAnswer (some resp) = "" →
      HandleWebSearch apiKey baseURL args (.response status body (some resp))
        = (.ok (noAnswerResult args), true)) :=
  ⟨fun apiKey baseURL args http h =>
      handleWebSearch_missing_query apiKey baseURL args http h,
   fun apiKey baseURL args status body resp hkey hok hq h200 h300 hans =>
      handleWebSearch_no_answer apiKey baseURL args status body resp
        hkey hok hq h200 h300 hans⟩

/-- C6 witness: an empty argument bag yields the missing-query result with
no call attempt; a 200 exchange whose envelope has no output yields the
no-answer result with the echo fields. -/
theorem claim_C6_witness :
    HandleWebSearch "key" "url" ([] : Args) (.failure "down")
      = (.ok { Success := false, Answer := "", Query := "", Model := "",
               Effort := "", TimeoutUsed := "", ID := "", RequestedModel := "",
               RequestedEffort := "", WebSearchUsed := false,
               PreviousResponseID := "",
               Error := "Please provide a query to search for" }, false) ∧
    HandleWebSearch "key" "url" [("query", GoVal.str "hi")]
        (.response 200 "ok" (some ⟨"id1", "m", ⟨"low"⟩, []⟩))
      = (.ok { Success := false, Answer := "", Query := "hi", Model := "",
               Effort := "", TimeoutUsed := "5m0s", ID := "",
               RequestedModel := "gpt-5-mini", RequestedEffort := "medium",
               WebSearchUsed := true, PreviousResponseID := "",
               Error := "No answer found in response" }, true) :=
  ⟨claim_C6.1 "key" "url" [] (.failure "down") (Or.inl rfl),
   claim_C6.2 "key" "url" [("query", GoVal.str "hi")] 200 "ok"
     ⟨"id1", "m", ⟨"low"⟩, []⟩ (by decide) rfl (by decide)
     (by decide) (by decide) rfl⟩

/-- C10: `HandleWebSearch` reads `previous_response_id` before validating
the query, so the missing-query failure result still carries the supplied
continuation token: the string value from the argument bag when present as a
string, the empty string when absent or not a string. -/
theorem claim_C10 :
    ∀ (apiKey baseURL : String) (args : Args) (http : HttpOutcome),
      (getStringArg args "query").2 = false ∨ (getStringArg args "query").1 = "" →
      ∃ r : WebSearchResult,
        HandleWebSearch apiKey baseURL args http = (.ok r, false) ∧
        r.PreviousResponseID = (getStringArg args "previous_response_id").1 ∧
        (∀ s, args.lookup "previous_response_id" = some (GoVal.str s) →
          r.PreviousResponseID = s) ∧
        ((∀ s, args.lookup "previous_response_id" ≠ some (GoVal.str s)) →
          r.PreviousResponseID = "") := by
  intro apiKey baseURL args http h
  refine ⟨missingQueryResult args,
    handleWebSearch_missing_query apiKey baseURL args http h, rfl, ?_, ?_⟩
  · intro s hs
    show (getStringArg args "previous_response_id").1 = s
    unfold getStringArg
    rw [hs]
  · intro hs
    show (getStringArg args "previous_response_id").1 = ""
    unfold getStringArg
    cases hl : args.lookup "previous_response_id" with
    | none => rfl
    | some v =>
      cases v with
      | str s => exact absurd hl (hs s)
      | boolv b => rfl
      | other => rfl

/-- C10 witness: the continuation token supplied alongside a missing query
survives into the failure result. -/
theorem claim_C10_witness :
    ∃ r : WebSearchResult,
      HandleWebSearch "key" "url"
          [("previous_response_id", GoVal.str "resp-42")] (.failure "down")
        = (.ok r, false) ∧
      r.PreviousResponseID
        = (getStringArg [("previous_response_id", GoVal.str "resp-42")]
            "previous_response_id").1 ∧
      (∀ s, ([("previous_response_id", GoVal.str "resp-42")] : Args).lookup
          "previous_response_id" = some (GoVal.str s) →
        r.PreviousResponseID = s) ∧
      ((∀ s, ([("previous_response_id", GoVal.str "resp-42")] : Args).lookup
          "previous_response_id" ≠ some (GoVal.str s)) →
        r.PreviousResponseID = "") :=
  claim_C10 "key" "url" [("previous_response_id", GoVal.str "resp-42")]
    (.failure "down") (Or.inl rfl)

end WebSearch
